import Mathlib

/-!
Verification of the bike-sharing dashboard pipeline (`src/streamlit_app.py`).

The program loads two CSV tables (hourly 2012 records and daily summer-2011
records), converts their `dteday` column to dates in place, filters each table
by a user-selected inclusive date range, and feeds group-by-mean aggregations
to four charts.  We embed the data model, the loader's error handling, the
date conversion, the range filter and the two group-by-mean aggregations as
executable Lean definitions and prove the specified properties about them.
-/

/-- A cell of the `dteday` column: either the raw string read from the CSV,
or the parsed date (encoded as `y*10000 + m*100 + d`, which is order-isomorphic
to calendar dates in ISO form).  `pd.to_datetime` turns `raw` into `parsed`. -/
inductive DateCell where
  | raw (s : String)
  | parsed (d : Nat)
deriving DecidableEq, Repr

/-- Split a character list at each dash, for date parsing. -/
def splitDash (acc : List Char) : List Char → List (List Char)
  | [] => [acc.reverse]
  | c :: rest => if c = '-' then acc.reverse :: splitDash [] rest else splitDash (c :: acc) rest

/-- Read a block of decimal digits as a number. -/
def parseDigits (cs : List Char) : Nat :=
  cs.foldl (fun a c => a * 10 + (c.toNat - 48)) 0

/-- Parse an ISO `YYYY-MM-DD` string into the numeric date encoding,
modelling `pd.to_datetime` on the CSV date column. -/
def parseDate (s : String) : Nat :=
  match (splitDash [] s.toList).map parseDigits with
  | [y, m, d] => y * 10000 + m * 100 + d
  | _ => 0

/-- The date value of a cell (`.dt.date` after conversion; raw strings parse). -/
def cellDate : DateCell → Nat
  | DateCell.raw s => parseDate s
  | DateCell.parsed d => d

/-- Model of `pd.to_datetime` on one cell: parses a raw string, leaves a date as is. -/
def convertCell (c : DateCell) : DateCell := DateCell.parsed (cellDate c)

/-- One row of the hourly 2012 table (`hour_df_2012_cleaned.csv`):
date, hour of day, weekend indicator, rental count. -/
structure HRow where
  dteday : DateCell
  hr : Nat
  is_weekend : Nat
  cnt : Int
deriving DecidableEq, Repr

/-- One row of the daily summer-2011 table (`day_df_summer_2011_cleaned.csv`):
date, temperature, weather-condition code, rental count. -/
structure DRow where
  dteday : DateCell
  temp : Rat
  weathersit : Nat
  cnt : Int
deriving DecidableEq, Repr

/-- The pair of in-memory tables returned by `load_data` on success. -/
structure LoadedData where
  hourly : List HRow
  daily : List DRow
deriving DecidableEq, Repr

/-- The in-place date conversion of lines 56-57:
`df['dteday'] = pd.to_datetime(df['dteday'])` on both tables. -/
def convertDates (s : LoadedData) : LoadedData :=
  ⟨s.hourly.map (fun r => { r with dteday := convertCell r.dteday }),
   s.daily.map (fun r => { r with dteday := convertCell r.dteday })⟩

/-- Date of an hourly row, as compared by the filter mask. -/
def hrowDate (r : HRow) : Nat := cellDate r.dteday

/-- Date of a daily row, as compared by the filter mask. -/
def drowDate (r : DRow) : Nat := cellDate r.dteday

/-- The filter stage (lines 79-87): boolean-mask selection
`df[(df['dteday'].dt.date >= start) & (df['dteday'].dt.date <= end)]`,
keeping rows in input order whose date lies in the inclusive range. -/
def filterByDate {α : Type} (dateOf : α → Nat) (s e : Nat) (t : List α) : List α :=
  t.filter (fun r => decide (s ≤ dateOf r) && decide (dateOf r ≤ e))

/-- Arithmetic mean of a list of integer counts, as an exact rational
(model of pandas `.mean()` over a group): the sum divided by the length,
built with `Rat.divInt` so that it evaluates by kernel reduction. -/
def meanList (l : List Int) : Rat := Rat.divInt l.sum l.length

theorem meanList_eq_div (l : List Int) :
    meanList l = ((l.sum : Int) : Rat) / ((l.length : Nat) : Rat) := by
  rw [meanList, Rat.divInt_eq_div]
  norm_num

/-- Lexicographic order on the `(hr, is_weekend)` grouping key: the order in
which pandas `groupby(['hr', 'is_weekend'])` (with its default `sort=True`)
emits the groups. -/
def keyLE (a b : Nat × Nat) : Prop := a.1 < b.1 ∨ (a.1 = b.1 ∧ a.2 ≤ b.2)

instance : DecidableRel keyLE :=
  fun a b => decidable_of_iff (a.1 < b.1 ∨ (a.1 = b.1 ∧ a.2 ≤ b.2)) Iff.rfl

instance : IsTotal (Nat × Nat) keyLE where
  total a b := by
    rcases Nat.lt_trichotomy a.1 b.1 with h | h | h
    · exact Or.inl (Or.inl h)
    · rcases Nat.le_total a.2 b.2 with h2 | h2
      · exact Or.inl (Or.inr ⟨h, h2⟩)
      · exact Or.inr (Or.inr ⟨h.symm, h2⟩)
    · exact Or.inr (Or.inl h)

instance : IsTrans (Nat × Nat) keyLE where
  trans a b c hab hbc := by
    rcases hab with h1 | ⟨h1, h1'⟩
    · rcases hbc with h2 | ⟨h2, _⟩
      · exact Or.inl (h1.trans h2)
      · exact Or.inl (h2 ▸ h1)
    · rcases hbc with h2 | ⟨h2, h2'⟩
      · exact Or.inl (h1 ▸ h2)
      · exact Or.inr ⟨h1.trans h2, h1'.trans h2'⟩

/-- The sorted list of distinct `(hr, is_weekend)` keys occurring in a table:
pandas `groupby` forms one group per distinct key and sorts the keys. -/
def hourWeekendKeys (t : List HRow) : List (Nat × Nat) :=
  List.insertionSort keyLE (t.map (fun r => (r.hr, r.is_weekend))).dedup

/-- Line 96: `filtered_hour_df.groupby(['hr','is_weekend'])['cnt'].mean().reset_index()`.
One output row per distinct `(hr, is_weekend)` key, sorted by key, carrying the
mean rental count of exactly the rows with that key. -/
def groupByHourWeekend (t : List HRow) : List ((Nat × Nat) × Rat) :=
  (hourWeekendKeys t).map (fun k =>
    (k, meanList ((t.filter (fun r => r.hr = k.1 ∧ r.is_weekend = k.2)).map (fun r => r.cnt))))

/-- The sorted list of distinct `weathersit` keys occurring in a table. -/
def weatherKeys (t : List DRow) : List Nat :=
  List.insertionSort (· ≤ ·) (t.map (fun r => r.weathersit)).dedup

/-- Line 131: `filtered_day_df.groupby('weathersit')['cnt'].mean().reset_index()`.
One output row per distinct weather code, sorted by code, carrying the mean
rental count of exactly the rows with that code. -/
def groupByWeather (t : List DRow) : List (Nat × Rat) :=
  (weatherKeys t).map (fun k =>
    (k, meanList ((t.filter (fun r => r.weathersit = k)).map (fun r => r.cnt))))

/-- The outcome of one `pd.read_csv` call: the file may be missing
(raising `FileNotFoundError`), unreadable (raising some other exception
whose text is `cause`), or readable with the given rows. -/
inductive FileRead (α : Type) where
  | missing
  | readError (cause : String)
  | ok (rows : α)
deriving DecidableEq, Repr

/-- The local files `load_data` reads, in the order it reads them. -/
structure FileSystem where
  hourFile : FileRead (List HRow)
  dayFile : FileRead (List DRow)
deriving DecidableEq, Repr

/-- Result of `load_data`: the two tables, or one of the two error conditions,
each carrying the user-facing message shown by `st.error`. -/
inductive LoadResult where
  | ok (hourly : List HRow) (daily : List DRow)
  | dataNotFound (shownMsg : String)
  | dataLoadError (shownMsg : String)
deriving DecidableEq, Repr

/-- The fixed message shown when a required CSV file is missing (line 28). -/
def notFoundMsg : String :=
  "Data files not found. Please ensure hour_df_2012_cleaned.csv and day_df_summer_2011_cleaned.csv are in the same directory as your script."

/-- Lines 22-33: read the hourly file, then the daily file; a
`FileNotFoundError` from either read yields the fixed not-found message and
`(None, None)`; any other exception yields a message carrying its cause and
`(None, None)`.  The first failing read wins, as in the Python `try` block. -/
def load_data (fs : FileSystem) : LoadResult :=
  match fs.hourFile with
  | FileRead.missing => LoadResult.dataNotFound notFoundMsg
  | FileRead.readError e => LoadResult.dataLoadError ("Error loading data: " ++ e)
  | FileRead.ok h =>
    match fs.dayFile with
    | FileRead.missing => LoadResult.dataNotFound notFoundMsg
    | FileRead.readError e => LoadResult.dataLoadError ("Error loading data: " ++ e)
    | FileRead.ok d => LoadResult.ok h d

/-- The inputs to the four charts, in source order: the hour/weekend line
chart data (line 96), the box-plot data (the filtered hourly table, line 109),
the scatter data (the filtered daily table, line 123), and the weather bar
chart data (line 131). -/
structure Charts where
  hourlyLine : List ((Nat × Nat) × Rat)
  weekendBox : List HRow
  tempScatter : List DRow
  weatherBar : List (Nat × Rat)
deriving DecidableEq, Repr

/-- The chart-input data computed by the presentation stage: the data
arguments handed to the four seaborn calls.  This is only the data side of
lines 89-139; the fallible axis-labelling calls of the presentation stage
are modelled separately by `presentation` below. -/
def renderCharts (fh : List HRow) (fd : List DRow) : Charts :=
  ⟨groupByHourWeekend fh, fh, fd, groupByWeather fd⟩

/-- The message of the `ValueError` matplotlib raises when the label count
of a `set_xticklabels` call does not match the fixed tick positions. -/
def tickLabelErrorMsg : String :=
  "ValueError: The number of FixedLocator locations does not match the number of ticklabels"

/-- Model of `Axes.set_xticklabels` on a categorical axis with `nTicks`
fixed tick positions (matplotlib 3.3 and later): raises `ValueError` when
the number of labels differs from the number of tick positions. -/
def set_xticklabels (nTicks nLabels : Nat) : Except String Unit :=
  if nTicks = nLabels then Except.ok () else Except.error tickLabelErrorMsg

/-- The number of categorical tick positions of the seaborn box plot of
line 109: one box per distinct `is_weekend` value in the filtered data. -/
def boxPlotTicks (t : List HRow) : Nat := ((t.map (fun r => r.is_weekend)).dedup).length

/-- The presentation stage of lines 89-139 with its fallible calls, in
source order: fig1 (line plot, explicit `set_xticks(range(24))`, no label
mismatch possible), fig2 (box plot, then line 113 sets 2 x-tick labels),
fig3 (scatter, no tick call), fig4 (bar chart, then line 137 sets 4 x-tick
labels — one bar per weather group).  An uncaught `ValueError` from either
`set_xticklabels` call aborts the stage. -/
def presentation (fh : List HRow) (fd : List DRow) : Except String Charts :=
  match set_xticklabels (boxPlotTicks fh) 2 with
  | Except.error e => Except.error e
  | Except.ok _ =>
    match set_xticklabels (groupByWeather fd).length 4 with
    | Except.error e => Except.error e
    | Except.ok _ => Except.ok (renderCharts fh fd)

/-- Outcome of one run of `main`: either the script stopped at `st.stop()`
after an error message (no chart step runs), or the data pipeline reached
the presentation stage with the given chart inputs and the tables as they
stand after the in-place date conversion. -/
inductive MainOutcome where
  | stopped (errMsg : String)
  | rendered (tables : LoadedData) (charts : Charts)
deriving DecidableEq, Repr

/-- The `main` function (lines 36-139; named `mainFn` here since Lean reserves `main`): load, stop on load failure, convert
the date columns in place, filter each table by its selected inclusive date
range `(fst, snd)`, and compute the chart inputs for the presentation stage. -/
def mainFn (fs : FileSystem) (fh fd : Nat × Nat) : MainOutcome :=
  match load_data fs with
  | LoadResult.dataNotFound m => MainOutcome.stopped m
  | LoadResult.dataLoadError m => MainOutcome.stopped m
  | LoadResult.ok h d =>
    let s := convertDates ⟨h, d⟩
    let fhour := filterByDate hrowDate fh.1 fh.2 s.hourly
    let fday := filterByDate drowDate fd.1 fd.2 s.daily
    MainOutcome.rendered s (renderCharts fhour fday)

/-- The table state that reaches the charts, when rendering happened. -/
def finalTables (fs : FileSystem) (fh fd : Nat × Nat) : Option LoadedData :=
  match mainFn fs fh fd with
  | MainOutcome.stopped _ => none
  | MainOutcome.rendered s _ => some s

/-- The non-date fields of an hourly row (used to state what the in-place
date conversion leaves untouched). -/
def hrowRest (r : HRow) : Nat × Nat × Int := (r.hr, r.is_weekend, r.cnt)

/-- The non-date fields of a daily row. -/
def drowRest (r : DRow) : Rat × Nat × Int := (r.temp, r.weathersit, r.cnt)

/-! Section: Helper lemmas -/

theorem mem_filterByDate {α : Type} (dateOf : α → Nat) (s e : Nat) (t : List α) (r : α) :
    r ∈ filterByDate dateOf s e t ↔ r ∈ t ∧ (s ≤ dateOf r ∧ dateOf r ≤ e) := by
  simp [filterByDate, List.mem_filter]

theorem keys_groupByHourWeekend (t : List HRow) :
    (groupByHourWeekend t).map Prod.fst = hourWeekendKeys t := by
  rw [groupByHourWeekend, List.map_map]
  exact (List.map_congr_left fun a _ => rfl).trans (List.map_id _)

theorem keys_groupByWeather (t : List DRow) :
    (groupByWeather t).map Prod.fst = weatherKeys t := by
  rw [groupByWeather, List.map_map]
  exact (List.map_congr_left fun a _ => rfl).trans (List.map_id _)

theorem mem_weatherKeys (t : List DRow) (k : Nat) :
    k ∈ weatherKeys t ↔ ∃ r ∈ t, r.weathersit = k := by
  rw [weatherKeys, (List.perm_insertionSort _ _).mem_iff, List.mem_dedup, List.mem_map]

theorem nodup_weatherKeys (t : List DRow) : (weatherKeys t).Nodup :=
  ((List.perm_insertionSort _ _).nodup_iff).mpr (List.nodup_dedup _)

theorem nodup_hourWeekendKeys (t : List HRow) : (hourWeekendKeys t).Nodup :=
  ((List.perm_insertionSort _ _).nodup_iff).mpr (List.nodup_dedup _)

theorem convertCell_convertCell (c : DateCell) : convertCell (convertCell c) = convertCell c := by
  cases c <;> rfl

/-! Section: Claims about the filter stage -/

/-- C1: for every table with a date column and every date pair `(s, e)` with
`s ≤ e`, the filter stage returns exactly the rows whose date lies in the
inclusive range: every returned row is in range, and every input row in range
is returned. -/
theorem filter_range_sound_complete {α : Type} (dateOf : α → Nat) (s e : Nat)
    (t : List α) (hse : s ≤ e) :
    (∀ r ∈ filterByDate dateOf s e t, s ≤ dateOf r ∧ dateOf r ≤ e) ∧
    (∀ r ∈ t, s ≤ dateOf r → dateOf r ≤ e → r ∈ filterByDate dateOf s e t) := by
  constructor
  · intro r hr
    exact ((mem_filterByDate dateOf s e t r).mp hr).2
  · intro r hrt h1 h2
    exact (mem_filterByDate dateOf s e t r).mpr ⟨hrt, h1, h2⟩

/-- Witness for C1 at a concrete table and range. -/
theorem filter_range_sound_complete_witness :
    (0 : Nat) ≤ 5 ∧
    ((∀ r ∈ filterByDate id 0 5 [1, 7, 3], 0 ≤ id r ∧ id r ≤ 5) ∧
     (∀ r ∈ [1, 7, 3], 0 ≤ id r → id r ≤ 5 → r ∈ filterByDate id 0 5 [1, 7, 3])) :=
  ⟨by decide, filter_range_sound_complete id 0 5 [1, 7, 3] (by decide)⟩

/-- C2: for every table and every date pair with `s > e`, the filter stage
returns the empty result (and, being a total function, raises no error). -/
theorem filter_empty_of_start_gt_end {α : Type} (dateOf : α → Nat) (s e : Nat)
    (t : List α) (hgt : s > e) :
    filterByDate dateOf s e t = [] := by
  apply List.filter_eq_nil_iff.mpr
  intro r _
  simp only [Bool.and_eq_true, decide_eq_true_eq, not_and]
  intro h1 h2
  omega

/-- Witness for C2 at a concrete table and reversed range. -/
theorem filter_empty_of_start_gt_end_witness :
    (5 : Nat) > 2 ∧ filterByDate id 5 2 [0, 3, 6] = [] :=
  ⟨by decide, filter_empty_of_start_gt_end id 5 2 [0, 3, 6] (by decide)⟩

/-- C10: the filter stage is idempotent and selective: every row of the
result is a row of the input, input row order is preserved (the result is a
sublist of the input), and filtering the result again with the same range
returns it unchanged. -/
theorem filter_idempotent_selective {α : Type} (dateOf : α → Nat) (s e : Nat)
    (t : List α) :
    (filterByDate dateOf s e t).Sublist t ∧
    (∀ r ∈ filterByDate dateOf s e t, r ∈ t) ∧
    filterByDate dateOf s e (filterByDate dateOf s e t) = filterByDate dateOf s e t := by
  refine ⟨List.filter_sublist t, fun r hr => (List.filter_sublist t).subset hr, ?_⟩
  rw [filterByDate, filterByDate, List.filter_filter]
  simp only [Bool.and_self]

/-! Section: Claims about the aggregation stage -/

/-- C7: the output of each group-by-mean aggregation is sorted by its grouping
key, with no duplicate keys, so the same input always produces the same row
order. -/
theorem aggregation_outputs_sorted_by_key (t : List HRow) (u : List DRow) :
    List.Sorted keyLE ((groupByHourWeekend t).map Prod.fst) ∧
    ((groupByHourWeekend t).map Prod.fst).Nodup ∧
    List.Sorted (· ≤ ·) ((groupByWeather u).map Prod.fst) ∧
    ((groupByWeather u).map Prod.fst).Nodup := by
  rw [keys_groupByHourWeekend, keys_groupByWeather]
  exact ⟨List.sorted_insertionSort _ _, nodup_hourWeekendKeys t,
    List.sorted_insertionSort _ _, nodup_weatherKeys u⟩

/-- C6: aggregation by weather condition yields at most 4 groups when every
row's weather code is one of the 4 known categories, exactly one group per
distinct code occurring in the rows, and each group's mean is the arithmetic
mean of the rental counts of exactly the rows with that code. -/
theorem weather_groups_at_most_four (t : List DRow)
    (hw : ∀ r ∈ t, r.weathersit ∈ ({1, 2, 3, 4} : Finset Nat)) :
    (groupByWeather t).length ≤ 4 ∧
    (∀ k : Nat, (∃ m, (k, m) ∈ groupByWeather t) ↔ ∃ r ∈ t, r.weathersit = k) ∧
    (∀ k m, (k, m) ∈ groupByWeather t →
      m = meanList ((t.filter (fun r => r.weathersit = k)).map (fun r => r.cnt))) := by
  refine ⟨?_, ?_, ?_⟩
  · have h1 : (groupByWeather t).length = (weatherKeys t).length := by
      rw [groupByWeather, List.length_map]
    have h2 : (weatherKeys t).length = ((t.map (fun r => r.weathersit)).dedup).length :=
      (List.perm_insertionSort _ _).length_eq
    have h3 : ((t.map (fun r => r.weathersit)).dedup).toFinset.card
        = ((t.map (fun r => r.weathersit)).dedup).length :=
      List.toFinset_card_of_nodup (List.nodup_dedup _)
    have h4 : ((t.map (fun r => r.weathersit)).dedup).toFinset ⊆ ({1, 2, 3, 4} : Finset Nat) := by
      intro k hk
      rw [List.mem_toFinset, List.mem_dedup, List.mem_map] at hk
      obtain ⟨r, hr, hrk⟩ := hk
      exact hrk ▸ hw r hr
    have h5 := Finset.card_le_card h4
    have hc : ({1, 2, 3, 4} : Finset Nat).card = 4 := by decide
    omega
  · intro k
    constructor
    · rintro ⟨m, hm⟩
      rw [groupByWeather, List.mem_map] at hm
      obtain ⟨a, ha, hak⟩ := hm
      have h1 : a = k := congrArg Prod.fst hak
      exact (mem_weatherKeys t k).mp (h1 ▸ ha)
    · intro hex
      exact ⟨meanList ((t.filter (fun r => r.weathersit = k)).map (fun r => r.cnt)),
        List.mem_map.mpr ⟨k, (mem_weatherKeys t k).mpr hex, rfl⟩⟩
  · intro k m hm
    rw [groupByWeather, List.mem_map] at hm
    obtain ⟨a, ha, hak⟩ := hm
    have h1 : a = k := congrArg Prod.fst hak
    have h2 := congrArg Prod.snd hak
    subst h1
    exact h2.symm

/-- A concrete one-row daily table used to witness the weather aggregation. -/
def wTable : List DRow := [⟨DateCell.parsed 20110601, 0, 1, 10⟩]

/-- Witness for C6 at a concrete one-row table. -/
theorem weather_groups_at_most_four_witness :
    (∀ r ∈ wTable, r.weathersit ∈ ({1, 2, 3, 4} : Finset Nat)) ∧
    ((groupByWeather wTable).length ≤ 4 ∧
     (∀ k : Nat, (∃ m, (k, m) ∈ groupByWeather wTable) ↔ ∃ r ∈ wTable, r.weathersit = k) ∧
     (∀ k m, (k, m) ∈ groupByWeather wTable →
       m = meanList ((wTable.filter (fun r => r.weathersit = k)).map (fun r => r.cnt)))) :=
  ⟨by decide, weather_groups_at_most_four wTable (by decide)⟩

/-- C9: on the two-row hourly table (hour 8, weekday, count 100) and
(hour 8, weekend, count 40), aggregation by (hour, weekend) yields exactly
two groups with means 100 and 40 respectively. -/
theorem two_row_scenario_groups :
    groupByHourWeekend
      [⟨DateCell.parsed 20120101, 8, 0, 100⟩, ⟨DateCell.parsed 20120101, 8, 1, 40⟩] =
      [((8, 0), (100 : Rat)), ((8, 1), 40)] := by decide

/-! Section: Claims about the loader and the pipeline state -/

/-- A concrete loaded hourly table with its date column still raw, as left
by `pd.read_csv`. -/
def h0 : List HRow := [⟨DateCell.raw "2012-01-01", 8, 0, 100⟩]

/-- A concrete loaded daily table with its date column still raw. -/
def d0 : List DRow := [⟨DateCell.raw "2011-06-01", 0, 1, 50⟩]

/-- A filesystem in which both CSV files read successfully. -/
def fs0 : FileSystem := ⟨FileRead.ok h0, FileRead.ok d0⟩

/-- Counterexample to C3: at a concrete run, the tables that reach the charts
are not the loaded tables — the in-place conversion of lines 56-57 has
replaced the `dteday` field of every row, so the loaded tables are mutated
after load. -/
theorem conversion_mutates_loaded_tables :
    finalTables fs0 (0, 99999999) (0, 99999999) ≠ some ⟨h0, d0⟩ ∧
    finalTables fs0 (0, 99999999) (0, 99999999) =
      some ⟨[⟨DateCell.parsed 20120101, 8, 0, 100⟩], [⟨DateCell.parsed 20110601, 0, 1, 50⟩]⟩ := by
  constructor <;> decide

theorem convertDates_idem (s : LoadedData) :
    convertDates (convertDates s) = convertDates s := by
  cases s with
  | mk hl dl =>
    simp only [convertDates, List.map_map, LoadedData.mk.injEq]
    constructor <;>
      exact List.map_congr_left fun r _ => by cases r; simp [convertCell_convertCell]

/-- C3 as amended: the only post-load write to the tables is the in-place
date conversion (lines 56-57).  The tables that reach the charts are exactly
the converted tables; the conversion touches only the `dteday` field, leaving
every other field of every row unchanged; and it is idempotent.  The filter
and aggregation stages produce derived views and never change the tables. -/
theorem pipeline_immutable_after_conversion (fs : FileSystem) (h : List HRow)
    (d : List DRow) (hh : fs.hourFile = FileRead.ok h) (hd : fs.dayFile = FileRead.ok d)
    (fh fd : Nat × Nat) :
    finalTables fs fh fd = some (convertDates ⟨h, d⟩) ∧
    (convertDates ⟨h, d⟩).hourly.map hrowRest = h.map hrowRest ∧
    (convertDates ⟨h, d⟩).daily.map drowRest = d.map drowRest ∧
    convertDates (convertDates ⟨h, d⟩) = convertDates ⟨h, d⟩ := by
  refine ⟨?_, ?_, ?_, convertDates_idem _⟩
  · simp [finalTables, mainFn, load_data, hh, hd]
  · simp only [convertDates, List.map_map]
    exact List.map_congr_left fun r _ => by cases r; rfl
  · simp only [convertDates, List.map_map]
    exact List.map_congr_left fun r _ => by cases r; rfl

/-- Witness for the amended C3 at a concrete filesystem and range. -/
theorem pipeline_immutable_after_conversion_witness :
    fs0.hourFile = FileRead.ok h0 ∧ fs0.dayFile = FileRead.ok d0 ∧
    (finalTables fs0 (0, 0) (0, 0) = some (convertDates ⟨h0, d0⟩) ∧
     (convertDates ⟨h0, d0⟩).hourly.map hrowRest = h0.map hrowRest ∧
     (convertDates ⟨h0, d0⟩).daily.map drowRest = d0.map drowRest ∧
     convertDates (convertDates ⟨h0, d0⟩) = convertDates ⟨h0, d0⟩) :=
  ⟨rfl, rfl, pipeline_immutable_after_conversion fs0 h0 d0 rfl rfl (0, 0) (0, 0)⟩

/-- C4: when a required data file is missing, the loader yields the
`DataNotFound` condition with its user-facing message, and `main` stops
before any chart is produced. -/
theorem missing_file_data_not_found (fs : FileSystem)
    (hmiss : fs.hourFile = FileRead.missing ∨
      ((∃ h, fs.hourFile = FileRead.ok h) ∧ fs.dayFile = FileRead.missing)) :
    load_data fs = LoadResult.dataNotFound notFoundMsg ∧
    ∀ fh fd, mainFn fs fh fd = MainOutcome.stopped notFoundMsg ∧
      ∀ s c, mainFn fs fh fd ≠ MainOutcome.rendered s c := by
  have hload : load_data fs = LoadResult.dataNotFound notFoundMsg := by
    rcases hmiss with h1 | ⟨⟨h, h1⟩, h2⟩
    · rw [load_data, h1]
    · rw [load_data, h1, h2]
  refine ⟨hload, fun fh fd => ⟨?_, ?_⟩⟩
  · rw [mainFn, hload]
  · intro s c
    rw [mainFn, hload]
    exact fun hcon => MainOutcome.noConfusion hcon

/-- Witness for C4 with the hourly file absent. -/
theorem missing_file_data_not_found_witness :
    ((⟨FileRead.missing, FileRead.ok []⟩ : FileSystem).hourFile = FileRead.missing ∨
      ((∃ h, (⟨FileRead.missing, FileRead.ok []⟩ : FileSystem).hourFile = FileRead.ok h) ∧
        (⟨FileRead.missing, FileRead.ok []⟩ : FileSystem).dayFile = FileRead.missing)) ∧
    (load_data ⟨FileRead.missing, FileRead.ok []⟩ = LoadResult.dataNotFound notFoundMsg ∧
     ∀ fh fd, mainFn ⟨FileRead.missing, FileRead.ok []⟩ fh fd = MainOutcome.stopped notFoundMsg ∧
       ∀ s c, mainFn ⟨FileRead.missing, FileRead.ok []⟩ fh fd ≠ MainOutcome.rendered s c) :=
  ⟨Or.inl rfl, missing_file_data_not_found ⟨FileRead.missing, FileRead.ok []⟩ (Or.inl rfl)⟩

/-- C5: when a read fails for any reason other than a missing file, the loader
yields the `DataLoadError` condition whose shown message carries the
underlying cause, and `main` stops before any chart is produced. -/
theorem load_error_carries_cause (fs : FileSystem) (e : String)
    (herr : fs.hourFile = FileRead.readError e ∨
      ((∃ h, fs.hourFile = FileRead.ok h) ∧ fs.dayFile = FileRead.readError e)) :
    load_data fs = LoadResult.dataLoadError ("Error loading data: " ++ e) ∧
    ∀ fh fd, mainFn fs fh fd = MainOutcome.stopped ("Error loading data: " ++ e) ∧
      ∀ s c, mainFn fs fh fd ≠ MainOutcome.rendered s c := by
  have hload : load_data fs = LoadResult.dataLoadError ("Error loading data: " ++ e) := by
    rcases herr with h1 | ⟨⟨h, h1⟩, h2⟩
    · rw [load_data, h1]
    · rw [load_data, h1, h2]
  refine ⟨hload, fun fh fd => ⟨?_, ?_⟩⟩
  · rw [mainFn, hload]
  · intro s c
    rw [mainFn, hload]
    exact fun hcon => MainOutcome.noConfusion hcon

/-- Witness for C5 with a daily file that fails to parse. -/
theorem load_error_carries_cause_witness :
    ((⟨FileRead.ok [], FileRead.readError "bad header"⟩ : FileSystem).hourFile =
        FileRead.readError "bad header" ∨
      ((∃ h, (⟨FileRead.ok [], FileRead.readError "bad header"⟩ : FileSystem).hourFile =
          FileRead.ok h) ∧
        (⟨FileRead.ok [], FileRead.readError "bad header"⟩ : FileSystem).dayFile =
          FileRead.readError "bad header")) ∧
    (load_data ⟨FileRead.ok [], FileRead.readError "bad header"⟩ =
        LoadResult.dataLoadError ("Error loading data: " ++ "bad header") ∧
     ∀ fh fd, mainFn ⟨FileRead.ok [], FileRead.readError "bad header"⟩ fh fd =
         MainOutcome.stopped ("Error loading data: " ++ "bad header") ∧
       ∀ s c, mainFn ⟨FileRead.ok [], FileRead.readError "bad header"⟩ fh fd ≠
         MainOutcome.rendered s c) :=
  ⟨Or.inr ⟨⟨[], rfl⟩, rfl⟩,
    load_error_carries_cause ⟨FileRead.ok [], FileRead.readError "bad header"⟩ "bad header"
      (Or.inr ⟨⟨[], rfl⟩, rfl⟩)⟩

theorem presentation_error_of_empty_hourly (fd : List DRow) :
    presentation [] fd = Except.error tickLabelErrorMsg := rfl

/-- C8, evaluated at the failing input: when the selected ranges make both
filtered tables empty, both aggregation stages do return empty outputs, but
the presentation stage raises `ValueError` at the `set_xticklabels` call of
line 113 (two labels against a box plot with zero categorical ticks; line
137 would likewise give four labels against zero bars) instead of
completing, contradicting the claim's no-raise conclusion. -/
theorem empty_filter_presentation_raises :
    groupByHourWeekend (filterByDate hrowDate 0 0 (convertDates ⟨h0, d0⟩).hourly) = [] ∧
    groupByWeather (filterByDate drowDate 0 0 (convertDates ⟨h0, d0⟩).daily) = [] ∧
    presentation (filterByDate hrowDate 0 0 (convertDates ⟨h0, d0⟩).hourly)
        (filterByDate drowDate 0 0 (convertDates ⟨h0, d0⟩).daily) =
      Except.error tickLabelErrorMsg :=
  ⟨by decide, by decide, by rfl⟩
